import Mathlib

/-!
# Verification of the tweet record-flattening and classification pipeline

Shallow embedding of the core of `src/convert_to_csvs.py`: the JSON data
model, the `KeywordFilter` classifier (lines 77-140), the entity parsing
functions `parse_entity_details` (146-169) and `extract_entities` (172-187),
the flatteners `record_user` (190-196) and `record_tweet` (199-217), and the
recursive driver `process_tweet` (238-255).

Python values decoded from JSON are modelled by the inductive type `JSON`,
with `JSON.null` standing for Python `None` (both a JSON `null` literal and
an absent key read through `dict.get` yield `None`, so the two collapse, as
they do in the Python program).  Fallible operations (subscripting, `.get`
on a non-dict, iterating `None`, string methods on non-strings) are modelled
in the `Except PyErr` monad.  Machine integers do not occur; the numeric
JSON payload is modelled as `Int` (no claim touches numeric values).
-/

/-- The Python exceptions the embedded fragment can raise. -/
inductive PyErr where
  | attrError
  | keyError
  | typeError
  | recursionError
  deriving DecidableEq, Repr

/-- A decoded JSON value; `null` doubles as Python `None`. -/
inductive JSON where
  | null
  | bool (b : Bool)
  | num (n : Int)
  | str (s : String)
  | arr (elems : List JSON)
  | obj (fields : List (String × JSON))

/-- First-match association-list lookup, the model of Python dict lookup. -/
def lookupField : List (String × JSON) → String → Option JSON
  | [], _ => none
  | (k2, v) :: rest, k => if k2 = k then some v else lookupField rest k

/-- Python truthiness of a decoded JSON value. -/
def JSON.truthy : JSON → Bool
  | .null => false
  | .bool b => b
  | .num n => n != 0
  | .str s => !s.isEmpty
  | .arr xs => !xs.isEmpty
  | .obj fs => !fs.isEmpty

/-- Test for `x is None`. -/
def isNull : JSON → Bool
  | .null => true
  | _ => false

/-- Test for `x is True`. -/
def isBoolTrue : JSON → Bool
  | .bool true => true
  | _ => false

/-- Python `d.get(k)`: `None` when the key is absent, `AttributeError` when
the receiver is not a dict (including `None`). -/
def pyGet : JSON → String → Except PyErr JSON
  | .obj fs, k => .ok ((lookupField fs k).getD .null)
  | _, _ => .error .attrError

/-- Python `d[k]`: `KeyError` when absent, `TypeError` when the receiver is
not a dict. -/
def pyIndex : JSON → String → Except PyErr JSON
  | .obj fs, k =>
    match lookupField fs k with
    | some v => .ok v
    | none => .error .keyError
  | _, _ => .error .typeError

/-- Python `len(x)` for the types that support it. -/
def pyLen : JSON → Except PyErr Nat
  | .arr xs => .ok xs.length
  | .str s => .ok s.length
  | .obj fs => .ok fs.length
  | _ => .error .typeError

/-- Python iteration `for x in v`: lists yield elements, strings yield
one-character strings, dicts yield their keys, everything else raises
`TypeError` (in particular `None`). -/
def pyIter : JSON → Except PyErr (List JSON)
  | .arr xs => .ok xs
  | .str s => .ok (s.data.map (fun c => .str (String.singleton c)))
  | .obj fs => .ok (fs.map (fun p => .str p.1))
  | _ => .error .typeError

/-- Case-lowering character by character (the inputs of interest are ASCII,
on which Python `str.lower` agrees with `Char.toLower`). -/
def strLower (s : String) : String := String.mk (s.data.map Char.toLower)

/-- Python `x.lower()`: defined on strings only. -/
def pyLowerStr : JSON → Except PyErr String
  | .str s => .ok (strLower s)
  | _ => .error .attrError

/-- Does the character list start with the given needle? -/
def charsStartWith : List Char → List Char → Bool
  | [], _ => true
  | _ :: _, [] => false
  | c :: cs, d :: ds => c == d && charsStartWith cs ds

/-- Substring containment on character lists. -/
def charsContains (hay needle : List Char) : Bool :=
  match hay with
  | [] => needle.isEmpty
  | _ :: rest => charsStartWith needle hay || charsContains rest needle

/-- Python `needle in hay` on strings (substring containment). -/
def strContains (hay needle : String) : Bool :=
  charsContains hay.data needle.data

/-- Python `term.replace(" ", "")`: with a one-character pattern and an empty
replacement this is exactly the removal of every space character. -/
def stripSpaces (s : String) : String :=
  String.mk (s.data.filter (fun c => !(c == ' ')))

/-- Python `x == term` where `term` is a string: values of another type
compare unequal. -/
def jsonEqStr : JSON → String → Bool
  | .str t, s => t == s
  | _, _ => false

/-- The `v is not None and len(v) > 0` guard used throughout
`parse_entity_details` (lines 151, 156, 160, 163, 167). -/
def notNoneAndNonEmpty (v : JSON) : Except PyErr Bool :=
  if isNull v then .ok false
  else do
    let n ← pyLen v
    .ok (decide (0 < n))

/-- An ordered string-keyed record, the model of the Python dicts used as
flat output rows (insertion order preserved). -/
abbrev Dict := List (String × JSON)

/-- The keys of a `Dict`, in order. -/
def dictKeys (d : Dict) : List String := d.map Prod.fst

/-- Membership of a key, Boolean form. -/
def dictHasKey : Dict → String → Bool
  | [], _ => false
  | (k2, _) :: rest, k => k2 == k || dictHasKey rest k

/-- Python dict assignment `d[k] = v`: replace in place when the key is
present, append otherwise. -/
def dictSet (d : Dict) (k : String) (v : JSON) : Dict :=
  if dictHasKey d k then d.map (fun p => if p.1 = k then (k, v) else p)
  else d ++ [(k, v)]

/-- Lookup in a `Dict` that models Python subscripting of an output row. -/
def dictIndex (d : Dict) (k : String) : Except PyErr JSON :=
  match lookupField d k with
  | some v => .ok v
  | none => .error .keyError

-- Schema constants, `convert_to_csvs.py` lines 58-73.

def BASIC_FIELDS : List String :=
  ["timestamp_ms", "in_reply_to_screen_name", "in_reply_to_user_id_str", "favorite_count",
   "quote_count", "coordinates", "favorited", "id_str", "text", "in_reply_to_user_id", "place", "geo",
   "retweet_count", "reply_count", "in_reply_to_status_id", "retweeted", "is_quote_status", "filter_level", "lang",
   "in_reply_to_status_id_str", "created_at", "source", "contributors"]

def USER_FIELDS : List String :=
  ["statuses_count", "utc_offset", "listed_count", "translator_type", "followers_count", "time_zone", "name", "protected",
   "screen_name", "is_translator", "contributors_enabled", "url", "id_str", "location", "created_at", "geo_enabled", "description",
   "lang", "profile_image_url", "profile_background_image_url", "favourites_count", "verified", "friends_count"]

def ENTITY_FIELDS : List String :=
  ["urls", "user_id_mentions", "user_screenname_mentions", "symbols", "hashtags", "media"]

def USER_FIELDS_OUT : List String := USER_FIELDS.map (fun f => "user." ++ f)

def TWEET_REF_FIELDS : List String := ["retweeted_status", "quoted_status"]

def FIELDNAMES : List String :=
  BASIC_FIELDS ++ TWEET_REF_FIELDS ++ ENTITY_FIELDS ++ ["user.id_str"]

-- Keyword classifier, `convert_to_csvs.py` lines 77-140.

/-- The keys of the `FILTERS` dispatch dict (line 91), in insertion order. -/
def FILTER_KEYS : List String := ["author", "text", "entities"]

/-- The classifier configuration: `self.keywords`, `self.flag`,
`self.do_filter`, and the keys of `self.filters`.  `keywords` is `Option`
because `decide_write` (line 140) tests `self.keywords is None`. -/
structure KeywordFilter where
  keywords : Option (List String)
  flag : String
  do_filter : Bool
  filters : List String

/-- `KeywordFilter.__init__` (lines 87-95).  The `filters` dict comprehension
iterates over the keys of `FILTERS`, keeping those contained in the argument,
so the construction is total: an unknown name in the argument is never looked
up and is silently dropped.  A falsy argument (absent or empty) selects every
filter. -/
def KeywordFilter.init (keywords : Option (List String)) (flag : String)
    (do_filter : Bool) (filters : Option (List String)) : KeywordFilter :=
  let fs :=
    match filters with
    | some l => if l.isEmpty then FILTER_KEYS else FILTER_KEYS.filter (fun f => l.contains f)
    | none => FILTER_KEYS
  ⟨keywords, flag, do_filter, fs⟩

/-- Iterating `self.keywords`: raises `TypeError` when it is `None`. -/
def getKeywords : Option (List String) → Except PyErr (List String)
  | some ks => .ok ks
  | none => .error .typeError

/-- `KeywordFilter.check_author` (lines 97-100): the keyword, with its spaces
removed, must equal the raw screen name. -/
def check_author (keywords : Option (List String)) (tweet : JSON) : Except PyErr Bool := do
  let user ← pyIndex tweet "user"
  let author ← pyIndex user "screen_name"
  let ks ← getKeywords keywords
  pure (ks.any (fun term => jsonEqStr author (stripSpaces term)))

/-- `KeywordFilter.check_text` (lines 125-131): pick the extended full text
when `tweet['truncated']` is truthy, else the primary text; lower-case it;
look for any keyword as an exact substring. -/
def check_text (keywords : Option (List String)) (tweet : JSON) : Except PyErr Bool := do
  let tr ← pyIndex tweet "truncated"
  let text ←
    if tr.truthy then do
      let ext ← pyIndex tweet "extended_tweet"
      pyIndex ext "full_text"
    else
      pyIndex tweet "text"
  let s ← pyLowerStr text
  let ks ← getKeywords keywords
  pure (ks.any (fun term => strContains s term))

/-- The base-entities block of `check_entities` (lines 103-108): when the
entities member is truthy, iterate the results of `.get` on hashtags and
user mentions (raising when a member is absent, since `None` is not
iterable), collecting lower-cased hashtag texts and raw screen names. -/
def collectBaseEntityVals (entities : JSON) : Except PyErr (List String × List JSON) := do
  if entities.truthy then do
    let hs ← pyIter (← pyGet entities "hashtags")
    let hashtags ← hs.mapM (fun h => do pyLowerStr (← pyIndex h "text"))
    let ms ← pyIter (← pyGet entities "user_mentions")
    let mentions ← ms.mapM (fun m => pyIndex m "screen_name")
    pure (hashtags, mentions)
  else
    pure (([] : List String), ([] : List JSON))

/-- One extended level of `check_entities` (lines 110-115 and 116-121): read
the level under `key` off the extended container with `.get`, and when
truthy extend the accumulated hashtag and mention values with the level's
truthy members. -/
def extendLevel (container : JSON) (acc : List String × List JSON) (key : String) :
    Except PyErr (List String × List JSON) := do
  let lvl ← pyGet container key
  if lvl.truthy then do
    let hashtags1 ← pyGet lvl "hashtags"
    let mentions1 ← pyGet lvl "user_mentions"
    let hashtags ←
      if hashtags1.truthy then do
        let hs ← pyIter hashtags1
        let extra ← hs.mapM (fun h => do pyLowerStr (← pyIndex h "text"))
        pure (acc.1 ++ extra)
      else pure acc.1
    let mentions ←
      if mentions1.truthy then do
        let ms ← pyIter mentions1
        let extra ← ms.mapM (fun m => pyIndex m "screen_name")
        pure (acc.2 ++ extra)
      else pure acc.2
    pure (hashtags, mentions)
  else pure acc

/-- `KeywordFilter.check_entities` (lines 102-123): collect lower-cased
hashtag texts and raw mention screen names from the base entities and, when
`tweet['truncated']` is truthy, from the two extended containers; match when
the collected values intersect the keyword list. -/
def check_entities (keywords : Option (List String)) (tweet : JSON) : Except PyErr Bool := do
  let entities ← pyGet tweet "entities"
  let base ← collectBaseEntityVals entities
  let tr ← pyIndex tweet "truncated"
  let merged ←
    if tr.truthy then do
      let ext1 ← pyIndex tweet "extended_tweet"
      let acc1 ← extendLevel ext1 base "entities"
      let ext2 ← pyIndex tweet "extended_tweet"
      extendLevel ext2 acc1 "extended_entities"
    else pure base
  let vals : List JSON := merged.1.map JSON.str ++ merged.2
  let ks ← getKeywords keywords
  pure (vals.any (fun v => ks.any (fun k => jsonEqStr v k)))

/-- Dispatch on a key of `self.filters` (the `FILTERS` dict of line 91). -/
def runFilter (kf : KeywordFilter) (name : String) (tweet : JSON) : Except PyErr Bool :=
  if name = "author" then check_author kf.keywords tweet
  else if name = "text" then check_text kf.keywords tweet
  else check_entities kf.keywords tweet

/-- `KeywordFilter.check_tweet` (lines 133-136): run every enabled filter, in
the order of the `FILTERS` dict, and take the disjunction. -/
def check_tweet (kf : KeywordFilter) (tweet : JSON) : Except PyErr Bool := do
  let results ← kf.filters.mapM (fun f => runFilter kf f tweet)
  pure (results.any id)

/-- `KeywordFilter.decide_write` (lines 138-140).  Note that `check_tweet`
runs unconditionally, before the disjunction is formed. -/
def decide_write (kf : KeywordFilter) (tweet : JSON) : Except PyErr Bool := do
  let has_keyword ← check_tweet kf tweet
  pure (kf.keywords.isNone || !kf.do_filter || (kf.do_filter && has_keyword))

-- Entity parsing, `convert_to_csvs.py` lines 146-187.

/-- The record built by `parse_entity_details`: one list per member of
`ENTITY_FIELDS`, in the declared order. -/
structure EntityRecord where
  urls : List JSON
  user_id_mentions : List JSON
  user_screenname_mentions : List JSON
  symbols : List JSON
  hashtags : List JSON
  media : List JSON

/-- Access an `EntityRecord` by field name (the `record[field]` dict reads of
lines 180-186 and 209-210). -/
def EntityRecord.field (r : EntityRecord) : String → List JSON
  | "urls" => r.urls
  | "user_id_mentions" => r.user_id_mentions
  | "user_screenname_mentions" => r.user_screenname_mentions
  | "symbols" => r.symbols
  | "hashtags" => r.hashtags
  | "media" => r.media
  | _ => []

/-- Field-wise concatenation, the `parsed_entities[field].extend(...)` loops
of lines 180-181 and 185-186. -/
def erAppend (a b : EntityRecord) : EntityRecord :=
  ⟨a.urls ++ b.urls, a.user_id_mentions ++ b.user_id_mentions,
   a.user_screenname_mentions ++ b.user_screenname_mentions,
   a.symbols ++ b.symbols, a.hashtags ++ b.hashtags, a.media ++ b.media⟩

/-- One kind-block of `parse_entity_details`: read the kind under `key` with
`.get`, and when it is present and non-empty map each sub-object to its
`sub` member (the pattern of lines 149-153, 154-158, 159-161, 166-168). -/
def parseKind (entities : JSON) (key sub : String) : Except PyErr (List JSON) := do
  let v ← pyGet entities key
  if (← notNoneAndNonEmpty v) then do
    (← pyIter v).mapM (fun u => pyIndex u sub)
  else pure []

/-- The mention block of `parse_entity_details` (lines 162-165), producing
the id list and the screen-name list from the same mention objects. -/
def parseMentions (entities : JSON) : Except PyErr (List JSON × List JSON) := do
  let v ← pyGet entities "user_mentions"
  if (← notNoneAndNonEmpty v) then do
    let ms ← pyIter v
    let ids ← ms.mapM (fun m => pyIndex m "id_str")
    let sns ← ms.mapM (fun m => pyIndex m "screen_name")
    pure (ids, sns)
  else pure (([] : List JSON), ([] : List JSON))

/-- `parse_entity_details` (lines 146-169).  Every field defaults to the
empty list; a kind is read only when present and non-empty, in source order
urls, media, hashtags, user mentions, symbols. -/
def parse_entity_details (entities : JSON) : Except PyErr EntityRecord := do
  if isNull entities then
    pure ⟨[], [], [], [], [], []⟩
  else do
    let url_links ← parseKind entities "urls" "expanded_url"
    let media_links ← parseKind entities "media" "media_url"
    let hashtag_texts ← parseKind entities "hashtags" "text"
    let mention_pair ← parseMentions entities
    let symbol_texts ← parseKind entities "symbols" "text"
    pure ⟨url_links, mention_pair.1, mention_pair.2, symbol_texts, hashtag_texts, media_links⟩

/-- `extract_entities` (lines 172-187): parse the base entities, then, when
`tweet.get("truncated") is True`, merge in the two extended containers in
order.  `extended.get(...)` raises when the extended container is absent. -/
def extract_entities (tweet : JSON) : Except PyErr EntityRecord := do
  let entities ← pyGet tweet "entities"
  let parsed ← parse_entity_details entities
  if isBoolTrue (← pyGet tweet "truncated") then do
    let extended ← pyGet tweet "extended_tweet"
    let entities2 ← pyGet extended "entities"
    let parsed ←
      if isNull entities2 then pure parsed
      else do
        let parsed2 ← parse_entity_details entities2
        pure (erAppend parsed parsed2)
    let ext_entities ← pyGet extended "extended_entities"
    if isNull ext_entities then pure parsed
    else do
      let parsed_ext ← parse_entity_details ext_entities
      pure (erAppend parsed parsed_ext)
  else pure parsed

-- Flatteners, `convert_to_csvs.py` lines 190-217.

/-- The `for field in USER_FIELDS` loop of lines 194-195: read each profile
field off the user object (raising when the user object is `None`). -/
def setUserFields (user : JSON) : List String → Dict → Except PyErr Dict
  | [], record => .ok record
  | f :: rest, record => do
    let v ← pyGet user f
    setUserFields user rest (dictSet record ("user." ++ f) v)

/-- `record_user` (lines 190-196). -/
def record_user (tweet : JSON) : Except PyErr Dict := do
  let user ← pyGet tweet "user"
  let user_record : Dict := USER_FIELDS_OUT.map (fun f => (f, JSON.null))
  let created ← pyGet tweet "created_at"
  let user_record := dictSet user_record "tweet.created_at" created
  setUserFields user USER_FIELDS user_record

/-- The `for field in BASIC_FIELDS` loop of lines 202-203: copy each scalar
field from the tweet into the record. -/
def setFieldsFrom (tweet : JSON) : List String → Dict → Except PyErr Dict
  | [], record => .ok record
  | f :: rest, record => do
    let v ← pyGet tweet f
    setFieldsFrom tweet rest (dictSet record f v)

/-- Lines 204-206: when `tweet.get("truncated") is True`, overwrite the text
field with the extended full text (raising when the container is absent). -/
def applyTruncatedText (tweet : JSON) (record : Dict) : Except PyErr Dict := do
  if isBoolTrue (← pyGet tweet "truncated") then do
    let extended ← pyGet tweet "extended_tweet"
    let full ← pyGet extended "full_text"
    pure (dictSet record "text" full)
  else pure record

/-- The `for field in ENTITY_FIELDS` loop of lines 209-210: store each entity
list into the record. -/
def setEntityFields (er : EntityRecord) : List String → Dict → Dict
  | [], record => record
  | f :: rest, record => setEntityFields er rest (dictSet record f (JSON.arr (er.field f)))

/-- The `for field in TWEET_REF_FIELDS` loop of lines 212-216: replace an
embedded reference tweet by its status id and collect the embedded object. -/
def setRefFields (tweet : JSON) : List String → Dict × List JSON → Except PyErr (Dict × List JSON)
  | [], acc => .ok acc
  | f :: rest, acc => do
    let ref ← pyGet tweet f
    if isNull ref then setRefFields tweet rest acc
    else do
      let idv ← pyGet ref "id_str"
      setRefFields tweet rest (dictSet acc.1 f idv, acc.2 ++ [ref])

/-- `record_tweet` (lines 199-217). -/
def record_tweet (tweet : JSON) : Except PyErr (Dict × List JSON) := do
  let record : Dict := FIELDNAMES.map (fun f => (f, JSON.null))
  let record ← setFieldsFrom tweet BASIC_FIELDS record
  let record ← applyTruncatedText tweet record
  let entities ← extract_entities tweet
  let record := setEntityFields entities ENTITY_FIELDS record
  setRefFields tweet TWEET_REF_FIELDS (record, [])

-- Driver, `convert_to_csvs.py` lines 238-255.

/-- Lines 239-244: with no filter configured every record is written;
otherwise `decide_write` decides. -/
def shouldWrite (kfOpt : Option KeywordFilter) (tweet : JSON) : Except PyErr Bool :=
  match kfOpt with
  | some kf => decide_write kf tweet
  | none => pure true

/-- `process_tweet` (lines 238-255), with the two `write_record_to_file`
calls replaced by returning the emitted `(record, user_record)` pairs in
emission order.  Python recursion is unbounded; the `fuel` argument makes
termination explicit, exhaustion standing for `RecursionError`. -/
def process_tweet : Nat → Option KeywordFilter → JSON → Except PyErr (List (Dict × Dict))
  | 0, _, _ => .error .recursionError
  | fuel + 1, kfOpt, tweet => do
    let write_record ← shouldWrite kfOpt tweet
    if write_record then do
      let rr ← record_tweet tweet
      let record := rr.1
      let refs := rr.2
      let record ←
        match kfOpt with
        | some kf =>
          if kf.flag.isEmpty then pure record
          else do
            let b ← check_tweet kf tweet
            pure (dictSet record kf.flag (JSON.bool b))
        | none => pure record
      let user_record ← record_user tweet
      let uid ← dictIndex user_record "user.id_str"
      let record := dictSet record "user.id_str" uid
      let rest ← refs.foldlM (fun acc ref => do
          let rows ← process_tweet fuel kfOpt ref
          pure (acc ++ rows)) ([] : List (Dict × Dict))
      pure ((record, user_record) :: rest)
    else
      pure []

/-! ## Basic lemmas about the embedding -/

@[simp]
theorem exbind_ok {α β : Type} (a : α) (f : α → Except PyErr β) :
    (Except.ok a >>= f) = f a := rfl

@[simp]
theorem exbind_err {α β : Type} (e : PyErr) (f : α → Except PyErr β) :
    ((Except.error e : Except PyErr α) >>= f) = Except.error e := rfl

@[simp]
theorem expure_eq_ok {α : Type} (a : α) : (pure a : Except PyErr α) = Except.ok a := rfl

/-- Whether an `Except` computation completed without raising. -/
def exOk {α : Type} : Except PyErr α → Bool
  | .ok _ => true
  | .error _ => false

@[simp] theorem exOk_ok {α : Type} (a : α) : exOk (Except.ok a) = true := rfl

@[simp] theorem exOk_err {α : Type} (e : PyErr) : exOk (Except.error e : Except PyErr α) = false := rfl

@[simp]
theorem pyGet_obj (fs : List (String × JSON)) (k : String) :
    pyGet (JSON.obj fs) k = .ok ((lookupField fs k).getD JSON.null) := rfl

theorem pyIndex_obj_some {fs : List (String × JSON)} {k : String} {v : JSON}
    (h : lookupField fs k = some v) : pyIndex (JSON.obj fs) k = .ok v := by
  simp [pyIndex, h]

theorem pyIndex_obj_none {fs : List (String × JSON)} {k : String}
    (h : lookupField fs k = none) : pyIndex (JSON.obj fs) k = .error .keyError := by
  simp [pyIndex, h]

theorem dictHasKey_iff {d : Dict} {k : String} : dictHasKey d k = true ↔ k ∈ dictKeys d := by
  induction d with
  | nil => simp [dictHasKey, dictKeys]
  | cons p rest ih =>
    cases p with
    | mk k2 v =>
      simp only [dictHasKey, dictKeys, List.map_cons, List.mem_cons, Bool.or_eq_true,
        beq_iff_eq] at *
      constructor
      · rintro (h | h)
        · exact Or.inl h.symm
        · exact Or.inr (ih.mp h)
      · rintro (h | h)
        · exact Or.inl h.symm
        · exact Or.inr (ih.mpr h)


theorem dictKeys_map_ite (d : Dict) (k : String) (v : JSON) :
    dictKeys (d.map (fun p => if p.1 = k then (k, v) else p)) = dictKeys d := by
  induction d with
  | nil => rfl
  | cons p rest ih =>
    by_cases h : p.1 = k
    · simp only [dictKeys, List.map_cons, if_pos h]
      exact congrArg₂ List.cons h.symm ih
    · simp only [dictKeys, List.map_cons, if_neg h]
      exact congrArg (List.cons p.1) ih

theorem dictKeys_dictSet_of_mem {d : Dict} {k : String} (h : k ∈ dictKeys d) (v : JSON) :
    dictKeys (dictSet d k v) = dictKeys d := by
  rw [dictSet, if_pos (dictHasKey_iff.mpr h)]
  exact dictKeys_map_ite d k v

theorem lookupField_eq_none_of_not_mem {d : Dict} {k : String} (h : k ∉ dictKeys d) :
    lookupField d k = none := by
  induction d with
  | nil => rfl
  | cons p rest ih =>
    cases p with
    | mk k2 v =>
      simp only [dictKeys, List.map_cons, List.mem_cons, not_or] at h
      rw [lookupField, if_neg (fun hh => h.1 hh.symm)]
      exact ih h.2

theorem lookupField_append_of_none {d : List (String × JSON)} {k : String}
    (h : lookupField d k = none) (e : List (String × JSON)) :
    lookupField (d ++ e) k = lookupField e k := by
  induction d with
  | nil => rfl
  | cons p rest ih =>
    cases p with
    | mk k2 w =>
      by_cases hk : k2 = k
      · rw [lookupField, if_pos hk] at h
        exact absurd h (by simp)
      · rw [lookupField, if_neg hk] at h
        show lookupField ((k2, w) :: (rest ++ e)) k = lookupField e k
        rw [lookupField, if_neg hk]
        exact ih h

theorem lookupField_append_of_some {d : List (String × JSON)} {k : String} {v : JSON}
    (h : lookupField d k = some v) (e : List (String × JSON)) :
    lookupField (d ++ e) k = some v := by
  induction d with
  | nil => exact absurd h (by simp [lookupField])
  | cons p rest ih =>
    cases p with
    | mk k2 w =>
      by_cases hk : k2 = k
      · rw [lookupField, if_pos hk] at h
        show lookupField ((k2, w) :: (rest ++ e)) k = some v
        rw [lookupField, if_pos hk]
        exact h
      · rw [lookupField, if_neg hk] at h
        show lookupField ((k2, w) :: (rest ++ e)) k = some v
        rw [lookupField, if_neg hk]
        exact ih h

theorem lookupField_map_ite_self {d : Dict} {k : String} (h : k ∈ dictKeys d) (v : JSON) :
    lookupField (d.map (fun p => if p.1 = k then (k, v) else p)) k = some v := by
  induction d with
  | nil => simp [dictKeys] at h
  | cons p rest ih =>
    by_cases hk : p.1 = k
    · simp only [List.map_cons, if_pos hk]
      rw [lookupField, if_pos rfl]
    · simp only [dictKeys, List.map_cons, List.mem_cons] at h
      have hmem : k ∈ dictKeys rest := by
        rcases h with h1 | h1
        · exact absurd h1.symm hk
        · exact h1
      simp only [List.map_cons, if_neg hk]
      rw [lookupField, if_neg hk]
      exact ih hmem

theorem lookupField_map_ite_ne {k2 k : String} (h : k2 ≠ k) (d : Dict) (v : JSON) :
    lookupField (d.map (fun p => if p.1 = k then (k, v) else p)) k2 = lookupField d k2 := by
  induction d with
  | nil => rfl
  | cons p rest ih =>
    by_cases hk : p.1 = k
    · simp only [List.map_cons, if_pos hk]
      rw [lookupField, lookupField, if_neg (fun hh : k = k2 => h hh.symm),
        if_neg (fun hh : p.1 = k2 => h (hh ▸ hk))]
      exact ih
    · simp only [List.map_cons, if_neg hk]
      rw [lookupField, lookupField]
      by_cases hp : p.1 = k2
      · rw [if_pos hp, if_pos hp]
      · rw [if_neg hp, if_neg hp]
        exact ih

theorem lookupField_dictSet_self (d : Dict) (k : String) (v : JSON) :
    lookupField (dictSet d k v) k = some v := by
  rw [dictSet]
  by_cases h : dictHasKey d k
  · rw [if_pos h]
    exact lookupField_map_ite_self (dictHasKey_iff.mp h) v
  · rw [if_neg h]
    have hnm : k ∉ dictKeys d := fun hm => h (dictHasKey_iff.mpr hm)
    rw [lookupField_append_of_none (lookupField_eq_none_of_not_mem hnm)]
    rw [lookupField, if_pos rfl]

theorem lookupField_dictSet_ne {k2 k : String} (h : k2 ≠ k) (d : Dict) (v : JSON) :
    lookupField (dictSet d k v) k2 = lookupField d k2 := by
  rw [dictSet]
  by_cases hm : dictHasKey d k
  · rw [if_pos hm]
    exact lookupField_map_ite_ne h d v
  · rw [if_neg hm]
    cases hl : lookupField d k2 with
    | some v2 => exact lookupField_append_of_some hl _
    | none =>
      rw [lookupField_append_of_none hl]
      rw [lookupField, if_neg (fun hh : k = k2 => h hh.symm)]
      rfl

/-! ## Lemmas about the flattening stages -/

theorem dictKeys_init (fs : List String) :
    dictKeys (fs.map (fun f => (f, JSON.null))) = fs := by
  induction fs with
  | nil => rfl
  | cons f rest ih =>
    simp only [List.map_cons, dictKeys] at *
    exact congrArg (List.cons f) ih

theorem setFieldsFrom_keys {t : JSON} {fs : List String} {r0 r1 : Dict}
    (h : setFieldsFrom t fs r0 = .ok r1) (hsub : ∀ f ∈ fs, f ∈ dictKeys r0) :
    dictKeys r1 = dictKeys r0 := by
  induction fs generalizing r0 with
  | nil =>
    simp only [setFieldsFrom] at h
    injection h with h2
    rw [h2]
  | cons f rest ih =>
    simp only [setFieldsFrom] at h
    cases hv : pyGet t f with
    | error e => rw [hv, exbind_err] at h; simp at h
    | ok v =>
      rw [hv, exbind_ok] at h
      have hk : f ∈ dictKeys r0 := hsub f (List.mem_cons_self f rest)
      have hkeys : dictKeys (dictSet r0 f v) = dictKeys r0 := dictKeys_dictSet_of_mem hk v
      have hsub2 : ∀ g ∈ rest, g ∈ dictKeys (dictSet r0 f v) := by
        intro g hg
        rw [hkeys]
        exact hsub g (List.mem_cons_of_mem f hg)
      rw [ih h hsub2, hkeys]

theorem setFieldsFrom_ok (tfs : List (String × JSON)) (fs : List String) (r0 : Dict) :
    ∃ r1, setFieldsFrom (JSON.obj tfs) fs r0 = .ok r1 := by
  induction fs generalizing r0 with
  | nil => exact ⟨r0, rfl⟩
  | cons f rest ih =>
    simp only [setFieldsFrom, pyGet_obj, exbind_ok]
    exact ih _

theorem setFieldsFrom_lookup_not_mem {t : JSON} {fs : List String} {r0 r1 : Dict} {f : String}
    (h : setFieldsFrom t fs r0 = .ok r1) (hf : f ∉ fs) :
    lookupField r1 f = lookupField r0 f := by
  induction fs generalizing r0 with
  | nil =>
    simp only [setFieldsFrom] at h
    injection h with h2
    rw [h2]
  | cons g rest ih =>
    simp only [setFieldsFrom] at h
    cases hv : pyGet t g with
    | error e => rw [hv, exbind_err] at h; simp at h
    | ok v =>
      rw [hv, exbind_ok] at h
      have hfg : f ≠ g := fun hh => hf (hh ▸ List.mem_cons_self g rest)
      rw [ih h (fun hh => hf (List.mem_cons_of_mem g hh)), lookupField_dictSet_ne hfg]

theorem setFieldsFrom_lookup {t : JSON} {fs : List String} {r0 r1 : Dict} {f : String} {v : JSON}
    (h : setFieldsFrom t fs r0 = .ok r1) (hf : f ∈ fs) (hv : pyGet t f = .ok v) :
    lookupField r1 f = some v := by
  induction fs generalizing r0 with
  | nil => simp at hf
  | cons g rest ih =>
    simp only [setFieldsFrom] at h
    cases hw : pyGet t g with
    | error e => rw [hw, exbind_err] at h; simp at h
    | ok w =>
      rw [hw, exbind_ok] at h
      by_cases hfr : f ∈ rest
      · exact ih h hfr
      · have hfg : f = g := by
          rcases List.mem_cons.mp hf with h1 | h1
          · exact h1
          · exact absurd h1 hfr
        subst hfg
        have hwv : w = v := by
          rw [hv] at hw
          injection hw with hh
          exact hh.symm
        rw [setFieldsFrom_lookup_not_mem h hfr, lookupField_dictSet_self, hwv]

theorem setEntityFields_keys {er : EntityRecord} {fs : List String} {r0 : Dict}
    (hsub : ∀ f ∈ fs, f ∈ dictKeys r0) :
    dictKeys (setEntityFields er fs r0) = dictKeys r0 := by
  induction fs generalizing r0 with
  | nil => rfl
  | cons f rest ih =>
    have hk : f ∈ dictKeys r0 := hsub f (List.mem_cons_self f rest)
    have hkeys := dictKeys_dictSet_of_mem hk (JSON.arr (er.field f))
    rw [setEntityFields,
      ih (fun g hg => by rw [hkeys]; exact hsub g (List.mem_cons_of_mem f hg)), hkeys]

theorem setEntityFields_lookup_not_mem {er : EntityRecord} {fs : List String} {r0 : Dict}
    {f : String} (hf : f ∉ fs) :
    lookupField (setEntityFields er fs r0) f = lookupField r0 f := by
  induction fs generalizing r0 with
  | nil => rfl
  | cons g rest ih =>
    have hfg : f ≠ g := fun hh => hf (hh ▸ List.mem_cons_self g rest)
    rw [setEntityFields, ih (fun hh => hf (List.mem_cons_of_mem g hh)),
      lookupField_dictSet_ne hfg]

theorem setRefFields_keys {t : JSON} {fs : List String} {r0 : Dict} {l0 : List JSON}
    {r : Dict} {refs : List JSON}
    (h : setRefFields t fs (r0, l0) = .ok (r, refs)) (hsub : ∀ f ∈ fs, f ∈ dictKeys r0) :
    dictKeys r = dictKeys r0 := by
  induction fs generalizing r0 l0 with
  | nil =>
    simp only [setRefFields] at h
    injection h with h2
    have ha : r0 = r := congrArg Prod.fst h2
    rw [← ha]
  | cons f rest ih =>
    simp only [setRefFields] at h
    cases hv : pyGet t f with
    | error e => rw [hv, exbind_err] at h; simp at h
    | ok v =>
      rw [hv, exbind_ok] at h
      by_cases hn : isNull v = true
      · rw [if_pos hn] at h
        exact ih h (fun g hg => hsub g (List.mem_cons_of_mem f hg))
      · rw [if_neg hn] at h
        cases hid : pyGet v "id_str" with
        | error e => rw [hid, exbind_err] at h; simp at h
        | ok idv =>
          rw [hid, exbind_ok] at h
          have hk : f ∈ dictKeys r0 := hsub f (List.mem_cons_self f rest)
          have hkeys := dictKeys_dictSet_of_mem hk idv
          rw [ih h (fun g hg => by rw [hkeys]; exact hsub g (List.mem_cons_of_mem f hg)), hkeys]

theorem setRefFields_lookup_not_mem {t : JSON} {fs : List String} {r0 : Dict} {l0 : List JSON}
    {r : Dict} {refs : List JSON} {f : String}
    (h : setRefFields t fs (r0, l0) = .ok (r, refs)) (hf : f ∉ fs) :
    lookupField r f = lookupField r0 f := by
  induction fs generalizing r0 l0 with
  | nil =>
    simp only [setRefFields] at h
    injection h with h2
    have ha : r0 = r := congrArg Prod.fst h2
    rw [← ha]
  | cons g rest ih =>
    simp only [setRefFields] at h
    cases hv : pyGet t g with
    | error e => rw [hv, exbind_err] at h; simp at h
    | ok v =>
      rw [hv, exbind_ok] at h
      by_cases hn : isNull v = true
      · rw [if_pos hn] at h
        exact ih h (fun hh => hf (List.mem_cons_of_mem g hh))
      · rw [if_neg hn] at h
        cases hid : pyGet v "id_str" with
        | error e => rw [hid, exbind_err] at h; simp at h
        | ok idv =>
          rw [hid, exbind_ok] at h
          have hfg : f ≠ g := fun hh => hf (hh ▸ List.mem_cons_self g rest)
          rw [ih h (fun hh => hf (List.mem_cons_of_mem g hh)), lookupField_dictSet_ne hfg]

theorem applyTruncatedText_keys {t : JSON} {r0 r1 : Dict}
    (h : applyTruncatedText t r0 = .ok r1) (htext : "text" ∈ dictKeys r0) :
    dictKeys r1 = dictKeys r0 := by
  simp only [applyTruncatedText] at h
  cases hv : pyGet t "truncated" with
  | error e => rw [hv, exbind_err] at h; simp at h
  | ok v =>
    rw [hv, exbind_ok] at h
    by_cases hb : isBoolTrue v = true
    · rw [if_pos hb] at h
      cases he : pyGet t "extended_tweet" with
      | error e => rw [he, exbind_err] at h; simp at h
      | ok ext =>
        rw [he, exbind_ok] at h
        cases hfu : pyGet ext "full_text" with
        | error e => rw [hfu, exbind_err] at h; simp at h
        | ok full =>
          rw [hfu, exbind_ok, expure_eq_ok] at h
          injection h with h2
          rw [← h2, dictKeys_dictSet_of_mem htext full]
    · rw [if_neg hb, expure_eq_ok] at h
      injection h with h2
      rw [h2]

theorem applyTruncatedText_lookup_ne {t : JSON} {r0 r1 : Dict} {f : String}
    (h : applyTruncatedText t r0 = .ok r1) (hf : f ≠ "text") :
    lookupField r1 f = lookupField r0 f := by
  simp only [applyTruncatedText] at h
  cases hv : pyGet t "truncated" with
  | error e => rw [hv, exbind_err] at h; simp at h
  | ok v =>
    rw [hv, exbind_ok] at h
    by_cases hb : isBoolTrue v = true
    · rw [if_pos hb] at h
      cases he : pyGet t "extended_tweet" with
      | error e => rw [he, exbind_err] at h; simp at h
      | ok ext =>
        rw [he, exbind_ok] at h
        cases hfu : pyGet ext "full_text" with
        | error e => rw [hfu, exbind_err] at h; simp at h
        | ok full =>
          rw [hfu, exbind_ok, expure_eq_ok] at h
          injection h with h2
          rw [← h2, lookupField_dictSet_ne hf]
    · rw [if_neg hb, expure_eq_ok] at h
      injection h with h2
      rw [h2]

theorem applyTruncatedText_of_not_true {fs : List (String × JSON)} {r : Dict}
    (h : isBoolTrue ((lookupField fs "truncated").getD JSON.null) = false) :
    applyTruncatedText (JSON.obj fs) r = .ok r := by
  simp [applyTruncatedText, pyGet_obj, h]

theorem record_tweet_inv {t : JSON} {r : Dict} {refs : List JSON}
    (h : record_tweet t = .ok (r, refs)) :
    ∃ r1 r2 er,
      setFieldsFrom t BASIC_FIELDS (FIELDNAMES.map (fun f => (f, JSON.null))) = .ok r1 ∧
      applyTruncatedText t r1 = .ok r2 ∧ extract_entities t = .ok er ∧
      setRefFields t TWEET_REF_FIELDS (setEntityFields er ENTITY_FIELDS r2, []) = .ok (r, refs) := by
  simp only [record_tweet] at h
  cases h1 : setFieldsFrom t BASIC_FIELDS (FIELDNAMES.map (fun f => (f, JSON.null))) with
  | error e => rw [h1, exbind_err] at h; simp at h
  | ok r1 =>
    rw [h1, exbind_ok] at h
    cases h2 : applyTruncatedText t r1 with
    | error e => rw [h2, exbind_err] at h; simp at h
    | ok r2 =>
      rw [h2, exbind_ok] at h
      cases h3 : extract_entities t with
      | error e => rw [h3, exbind_err] at h; simp at h
      | ok er =>
        rw [h3, exbind_ok] at h
        exact ⟨r1, r2, er, rfl, h2, rfl, h⟩

/-! ## Claim C1: the flat record's key set is exactly the declared schema -/

/-- Claim C1: for every input on which the flattener returns, the returned
record's key sequence is exactly `FIELDNAMES`: no key outside the schema
appears and none is missing; moreover a basic field that is absent from the
input (so that `tweet.get(field)` gives `None`) is present in the record
with an explicit null value (stated for fields other than the text field,
which a truncated tweet may overwrite). -/
theorem claim_C1_schema_keys (t : JSON) (r : Dict) (refs : List JSON)
    (h : record_tweet t = .ok (r, refs)) :
    dictKeys r = FIELDNAMES ∧
      (∀ f ∈ BASIC_FIELDS, f ≠ "text" → pyGet t f = .ok JSON.null →
        lookupField r f = some JSON.null) := by
  obtain ⟨r1, r2, er, h1, h2, h3, h4⟩ := record_tweet_inv h
  have hinit : dictKeys (FIELDNAMES.map (fun f => (f, JSON.null))) = FIELDNAMES :=
    dictKeys_init _
  have hbasic : ∀ f ∈ BASIC_FIELDS, f ∈ FIELDNAMES := by decide
  have hk1 : dictKeys r1 = FIELDNAMES := by
    rw [setFieldsFrom_keys h1 (fun f hf => by rw [hinit]; exact hbasic f hf), hinit]
  have htext : ("text" : String) ∈ FIELDNAMES := by decide
  have hk2 : dictKeys r2 = FIELDNAMES := by
    rw [applyTruncatedText_keys h2 (hk1 ▸ htext), hk1]
  have hent : ∀ f ∈ ENTITY_FIELDS, f ∈ FIELDNAMES := by decide
  have hk3 : dictKeys (setEntityFields er ENTITY_FIELDS r2) = FIELDNAMES := by
    rw [setEntityFields_keys (fun f hf => by rw [hk2]; exact hent f hf), hk2]
  have href : ∀ f ∈ TWEET_REF_FIELDS, f ∈ FIELDNAMES := by decide
  have hkr : dictKeys r = FIELDNAMES := by
    rw [setRefFields_keys h4 (fun f hf => by rw [hk3]; exact href f hf), hk3]
  refine ⟨hkr, ?_⟩
  intro f hf hft hfv
  have hd1 : ∀ g ∈ BASIC_FIELDS, g ∉ ENTITY_FIELDS := by decide
  have hd2 : ∀ g ∈ BASIC_FIELDS, g ∉ TWEET_REF_FIELDS := by decide
  have h1l : lookupField r1 f = some JSON.null := setFieldsFrom_lookup h1 hf hfv
  have h2l : lookupField r2 f = some JSON.null := by
    rw [applyTruncatedText_lookup_ne h2 hft, h1l]
  have h3l : lookupField (setEntityFields er ENTITY_FIELDS r2) f = some JSON.null := by
    rw [setEntityFields_lookup_not_mem (hd1 f hf), h2l]
  rw [setRefFields_lookup_not_mem h4 (hd2 f hf), h3l]

/-- The record produced for the empty tweet object: every basic and
reference field null, every entity field an empty list. -/
def c1record : Dict :=
  FIELDNAMES.map (fun f => (f, if ENTITY_FIELDS.contains f then JSON.arr [] else JSON.null))

/-- Witness for C1 at the concrete input `{}`. -/
theorem claim_C1_schema_keys_witness :
    dictKeys c1record = FIELDNAMES ∧ lookupField c1record "id_str" = some JSON.null :=
  ⟨(claim_C1_schema_keys (JSON.obj []) c1record [] (by rfl)).1,
   (claim_C1_schema_keys (JSON.obj []) c1record [] (by rfl)).2 "id_str" (by decide)
     (by decide) (by rfl)⟩

/-! ## Claim C2: the retention decision table -/

/-- Claim C2: the retention decision.  With no filter configured the driver
always retains (`shouldWrite`).  With a filter whose checks complete:
a false retention flag retains regardless of the match result, and a true
retention flag (with a configured keyword list) retains exactly when some
enabled field matched. -/
theorem claim_C2_retention_policy (kf : KeywordFilter) (t : JSON) (ks : List String)
    (has : Bool) :
    shouldWrite none t = .ok true ∧
      (check_tweet kf t = .ok has →
        ((kf.do_filter = false → decide_write kf t = .ok true) ∧
         (kf.keywords = some ks → kf.do_filter = true → decide_write kf t = .ok has))) := by
  refine ⟨rfl, fun hchk => ⟨fun hdf => ?_, fun hkw hdf => ?_⟩⟩
  · simp [decide_write, hchk, hdf]
  · simp [decide_write, hchk, hdf, hkw]

/-- Witness for C2 at a concrete filter (no enabled checks, so the check
trivially completes with `false`) and the null tweet. -/
theorem claim_C2_retention_policy_witness :
    shouldWrite none JSON.null = .ok true ∧
      decide_write ⟨some ["k"], "flagcol", true, []⟩ JSON.null = .ok false :=
  ⟨(claim_C2_retention_policy ⟨some ["k"], "flagcol", true, []⟩ JSON.null ["k"] false).1,
   ((claim_C2_retention_policy ⟨some ["k"], "flagcol", true, []⟩ JSON.null ["k"] false).2
     (by rfl)).2 (by rfl) (by rfl)⟩

/-! ## Lemmas about entity parsing -/

theorem parseKind_absent {gfs : List (String × JSON)} {key : String} (sub : String)
    (h : lookupField gfs key = none) :
    parseKind (JSON.obj gfs) key sub = .ok [] := by
  simp [parseKind, h, notNoneAndNonEmpty, isNull]

theorem parseMentions_absent {gfs : List (String × JSON)}
    (h : lookupField gfs "user_mentions" = none) :
    parseMentions (JSON.obj gfs) = .ok ([], []) := by
  simp [parseMentions, h, notNoneAndNonEmpty, isNull]

theorem parse_entity_details_obj_inv {gfs : List (String × JSON)} {rr : EntityRecord}
    (h : parse_entity_details (JSON.obj gfs) = .ok rr) :
    ∃ us ms hs mp ss,
      parseKind (JSON.obj gfs) "urls" "expanded_url" = .ok us ∧
      parseKind (JSON.obj gfs) "media" "media_url" = .ok ms ∧
      parseKind (JSON.obj gfs) "hashtags" "text" = .ok hs ∧
      parseMentions (JSON.obj gfs) = .ok mp ∧
      parseKind (JSON.obj gfs) "symbols" "text" = .ok ss ∧
      rr = ⟨us, mp.1, mp.2, ss, hs, ms⟩ := by
  simp only [parse_entity_details, show isNull (JSON.obj gfs) = false from rfl,
    Bool.false_eq_true, if_false] at h
  cases h1 : parseKind (JSON.obj gfs) "urls" "expanded_url" with
  | error e => rw [h1, exbind_err] at h; simp at h
  | ok us =>
    rw [h1, exbind_ok] at h
    cases h2 : parseKind (JSON.obj gfs) "media" "media_url" with
    | error e => rw [h2, exbind_err] at h; simp at h
    | ok ms =>
      rw [h2, exbind_ok] at h
      cases h3 : parseKind (JSON.obj gfs) "hashtags" "text" with
      | error e => rw [h3, exbind_err] at h; simp at h
      | ok hs =>
        rw [h3, exbind_ok] at h
        cases h4 : parseMentions (JSON.obj gfs) with
        | error e => rw [h4, exbind_err] at h; simp at h
        | ok mp =>
          rw [h4, exbind_ok] at h
          cases h5 : parseKind (JSON.obj gfs) "symbols" "text" with
          | error e => rw [h5, exbind_err] at h; simp at h
          | ok ss =>
            rw [h5, exbind_ok, expure_eq_ok] at h
            injection h with h6
            exact ⟨us, ms, hs, mp, ss, rfl, rfl, rfl, rfl, rfl, h6.symm⟩

theorem parse_absent_kinds {gfs : List (String × JSON)} {rr : EntityRecord}
    (h : parse_entity_details (JSON.obj gfs) = .ok rr) :
    (lookupField gfs "urls" = none → rr.urls = []) ∧
    (lookupField gfs "media" = none → rr.media = []) ∧
    (lookupField gfs "hashtags" = none → rr.hashtags = []) ∧
    (lookupField gfs "user_mentions" = none →
      rr.user_id_mentions = [] ∧ rr.user_screenname_mentions = []) ∧
    (lookupField gfs "symbols" = none → rr.symbols = []) := by
  obtain ⟨us, ms, hs, mp, ss, h1, h2, h3, h4, h5, h6⟩ := parse_entity_details_obj_inv h
  subst h6
  refine ⟨fun ha => ?_, fun ha => ?_, fun ha => ?_, fun ha => ?_, fun ha => ?_⟩
  · have hz := parseKind_absent "expanded_url" ha
    rw [h1] at hz
    exact Except.ok.inj hz
  · have hz := parseKind_absent "media_url" ha
    rw [h2] at hz
    exact Except.ok.inj hz
  · have hz := parseKind_absent "text" ha
    rw [h3] at hz
    exact Except.ok.inj hz
  · have hz := parseMentions_absent ha
    rw [h4] at hz
    have hh := Except.ok.inj hz
    exact ⟨by rw [hh], by rw [hh]⟩
  · have hz := parseKind_absent "text" ha
    rw [h5] at hz
    exact Except.ok.inj hz

/-! ## Claim C3: three-level entity merge order -/

/-- Claim C3: on a tweet whose truncated flag is exactly `true`, carrying an
extended container with parseable entity objects at all three levels, the
extractor returns the field-wise concatenation base, then extended entities,
then extended-extended entities, preserving within-level order and without
deduplication; and a kind absent from an entity object contributes the empty
list at that level whenever the parse completes. -/
theorem claim_C3_entity_merge_order (fs efs : List (String × JSON)) (e0 e1 e2 : JSON)
    (r0 r1 r2 : EntityRecord)
    (htr : lookupField fs "truncated" = some (JSON.bool true))
    (hext : lookupField fs "extended_tweet" = some (JSON.obj efs))
    (he0 : lookupField fs "entities" = some e0)
    (he1 : lookupField efs "entities" = some e1)
    (he2 : lookupField efs "extended_entities" = some e2)
    (hn1 : isNull e1 = false) (hn2 : isNull e2 = false)
    (hp0 : parse_entity_details e0 = .ok r0)
    (hp1 : parse_entity_details e1 = .ok r1)
    (hp2 : parse_entity_details e2 = .ok r2) :
    extract_entities (JSON.obj fs) = .ok (erAppend (erAppend r0 r1) r2) ∧
      (erAppend (erAppend r0 r1) r2).urls = (r0.urls ++ r1.urls) ++ r2.urls ∧
      (erAppend (erAppend r0 r1) r2).user_id_mentions =
        (r0.user_id_mentions ++ r1.user_id_mentions) ++ r2.user_id_mentions ∧
      (erAppend (erAppend r0 r1) r2).user_screenname_mentions =
        (r0.user_screenname_mentions ++ r1.user_screenname_mentions) ++
          r2.user_screenname_mentions ∧
      (erAppend (erAppend r0 r1) r2).symbols = (r0.symbols ++ r1.symbols) ++ r2.symbols ∧
      (erAppend (erAppend r0 r1) r2).hashtags = (r0.hashtags ++ r1.hashtags) ++ r2.hashtags ∧
      (erAppend (erAppend r0 r1) r2).media = (r0.media ++ r1.media) ++ r2.media ∧
      (∀ (gfs : List (String × JSON)) (rr : EntityRecord),
        parse_entity_details (JSON.obj gfs) = .ok rr →
        (lookupField gfs "hashtags" = none → rr.hashtags = []) ∧
        (lookupField gfs "user_mentions" = none →
          rr.user_id_mentions = [] ∧ rr.user_screenname_mentions = []) ∧
        (lookupField gfs "urls" = none → rr.urls = []) ∧
        (lookupField gfs "media" = none → rr.media = []) ∧
        (lookupField gfs "symbols" = none → rr.symbols = [])) := by
  refine ⟨?_, rfl, rfl, rfl, rfl, rfl, rfl, fun gfs rr hprr => ?_⟩
  · simp [extract_entities, he0, hp0, htr, hext, he1, he2, hn1, hn2, hp1, hp2, isBoolTrue]
  · obtain ⟨q1, q2, q3, q4, q5⟩ := parse_absent_kinds hprr
    exact ⟨q3, q4, q1, q2, q5⟩

/-- A one-hashtag entity object used by the C3 witness. -/
def c3entities (tag : String) : JSON :=
  JSON.obj [("hashtags", JSON.arr [JSON.obj [("text", JSON.str tag)]])]

def c3efields : List (String × JSON) :=
  [("entities", c3entities "b"), ("extended_entities", c3entities "c")]

def c3fields : List (String × JSON) :=
  [("truncated", JSON.bool true), ("entities", c3entities "a"),
   ("extended_tweet", JSON.obj c3efields)]

/-- Witness for C3 at a concrete truncated tweet with one hashtag per
level. -/
theorem claim_C3_entity_merge_order_witness :
    extract_entities (JSON.obj c3fields) =
      .ok ⟨[], [], [], [], [JSON.str "a", JSON.str "b", JSON.str "c"], []⟩ :=
  (claim_C3_entity_merge_order c3fields c3efields (c3entities "a") (c3entities "b")
    (c3entities "c") ⟨[], [], [], [], [JSON.str "a"], []⟩ ⟨[], [], [], [], [JSON.str "b"], []⟩
    ⟨[], [], [], [], [JSON.str "c"], []⟩ (by rfl) (by rfl) (by rfl) (by rfl) (by rfl)
    (by rfl) (by rfl) (by rfl) (by rfl) (by rfl)).1

/-! ## Claim C4: tolerance of missing optional fields -/

/-- Counterexample to C4 as stated: a tweet whose truncated flag is exactly
`true` but which has no extended container makes `record_tweet` raise at
`extended.get("full_text")` (line 206), and a tweet with no user sub-object
makes `record_user` raise at `user.get(field)` (line 195): neither completes
with null outputs. -/
theorem claim_C4_counterexample :
    record_tweet (JSON.obj [("truncated", JSON.bool true)]) = .error PyErr.attrError ∧
      record_user (JSON.obj []) = .error PyErr.attrError :=
  ⟨rfl, rfl⟩

theorem setUserFields_ok (ufs : List (String × JSON)) (fields : List String) (r0 : Dict) :
    ∃ r1, setUserFields (JSON.obj ufs) fields r0 = .ok r1 := by
  induction fields generalizing r0 with
  | nil => exact ⟨r0, rfl⟩
  | cons f rest ih =>
    simp only [setUserFields, pyGet_obj, exbind_ok]
    exact ih _

theorem extract_entities_not_true {fs : List (String × JSON)}
    (h : isBoolTrue ((lookupField fs "truncated").getD JSON.null) = false) :
    extract_entities (JSON.obj fs) =
      parse_entity_details ((lookupField fs "entities").getD JSON.null) := by
  cases hp : parse_entity_details ((lookupField fs "entities").getD JSON.null) with
  | error e => simp [extract_entities, hp, h]
  | ok p => simp [extract_entities, hp, h]

theorem setRefFields_absent {fs : List (String × JSON)} {acc : Dict × List JSON}
    (hrs : lookupField fs "retweeted_status" = none)
    (hqs : lookupField fs "quoted_status" = none) :
    setRefFields (JSON.obj fs) TWEET_REF_FIELDS acc = .ok acc := by
  simp [TWEET_REF_FIELDS, setRefFields, hrs, hqs, isNull]

/-- Claim C4, amended: the flattener and the user-snapshot derivation
tolerate absent optional fields, with two exceptions forced by the
counterexample.  A tweet object with the truncated flag, the entities
member and both reference members absent is flattened without error (and
yields no embedded references); and whenever a user object is present,
`record_user` completes. -/
theorem claim_C4_no_raise_amended (fs ufs : List (String × JSON))
    (htr : lookupField fs "truncated" = none)
    (hen : lookupField fs "entities" = none)
    (hrs : lookupField fs "retweeted_status" = none)
    (hqs : lookupField fs "quoted_status" = none) :
    (∃ r, record_tweet (JSON.obj fs) = .ok (r, [])) ∧
      (lookupField fs "user" = some (JSON.obj ufs) →
        ∃ u, record_user (JSON.obj fs) = .ok u) := by
  have hb : isBoolTrue ((lookupField fs "truncated").getD JSON.null) = false := by
    rw [htr]; rfl
  constructor
  · obtain ⟨r1, h1⟩ :=
      setFieldsFrom_ok fs BASIC_FIELDS (FIELDNAMES.map (fun f => (f, JSON.null)))
    refine ⟨setEntityFields ⟨[], [], [], [], [], []⟩ ENTITY_FIELDS r1, ?_⟩
    have e1 : record_tweet (JSON.obj fs) =
        (setFieldsFrom (JSON.obj fs) BASIC_FIELDS (FIELDNAMES.map (fun f => (f, JSON.null))) >>=
          fun record => applyTruncatedText (JSON.obj fs) record >>= fun record =>
          extract_entities (JSON.obj fs) >>= fun entities =>
          setRefFields (JSON.obj fs) TWEET_REF_FIELDS
            (setEntityFields entities ENTITY_FIELDS record, [])) := rfl
    rw [e1, h1, exbind_ok, applyTruncatedText_of_not_true hb, exbind_ok,
      extract_entities_not_true hb, hen]
    rw [show ((none : Option JSON).getD JSON.null) = JSON.null from rfl,
      show parse_entity_details JSON.null = Except.ok (⟨[], [], [], [], [], []⟩ : EntityRecord)
        from rfl, exbind_ok]
    exact setRefFields_absent hrs hqs
  · intro huser
    obtain ⟨u, hu⟩ := setUserFields_ok ufs USER_FIELDS
      (dictSet (USER_FIELDS_OUT.map (fun f => (f, JSON.null))) "tweet.created_at"
        ((lookupField fs "created_at").getD JSON.null))
    refine ⟨u, ?_⟩
    have e1 : record_user (JSON.obj fs) =
        (pyGet (JSON.obj fs) "user" >>= fun user =>
          pyGet (JSON.obj fs) "created_at" >>= fun created =>
          setUserFields user USER_FIELDS
            (dictSet (USER_FIELDS_OUT.map (fun f => (f, JSON.null))) "tweet.created_at"
              created)) := rfl
    rw [e1, pyGet_obj, exbind_ok, huser, pyGet_obj, exbind_ok]
    rw [show ((some (JSON.obj ufs)).getD JSON.null) = JSON.obj ufs from rfl]
    exact hu

/-- Witness for the amended C4 at the concrete tweet carrying only a user
object. -/
theorem claim_C4_no_raise_amended_witness :
    exOk (record_tweet (JSON.obj [("user", JSON.obj [])])) = true ∧
      exOk (record_user (JSON.obj [("user", JSON.obj [])])) = true := by
  obtain ⟨⟨r, hr⟩, h2⟩ :=
    claim_C4_no_raise_amended [("user", JSON.obj [])] [] rfl rfl rfl rfl
  obtain ⟨u, hu⟩ := h2 rfl
  rw [hr, hu]
  exact ⟨rfl, rfl⟩

/-! ## Claim C5: the text check -/

/-- Counterexample to C5 as stated: matching is not case-insensitive in the
keyword.  The keyword list element can contain upper-case letters, the text
contains its lower-case occurrence (second conjunct), yet `check_text`
returns false, because only the text is lower-cased (line 130) while the
keyword is compared verbatim (line 131). -/
theorem claim_C5_counterexample :
    check_text (some ["AI"])
      (JSON.obj [("truncated", JSON.bool false), ("text", JSON.str "ai stuff")]) =
        .ok false ∧
      strContains (strLower "ai stuff") (strLower "AI") = true :=
  ⟨rfl, rfl⟩

/-- Claim C5, amended: `check_text` scans the effective text — the extended
full text when the truncated value is truthy, else the primary text —
lower-cased, and returns true iff some keyword occurs verbatim as a
substring of that lower-cased text (case-insensitive in the text, but
case-sensitive in the keyword). -/
theorem claim_C5_text_check_amended (kws : List String) (fs : List (String × JSON))
    (v : JSON) (s : String)
    (htr : lookupField fs "truncated" = some v)
    (heff : (v.truthy = false ∧ lookupField fs "text" = some (JSON.str s)) ∨
      (v.truthy = true ∧ ∃ efs, lookupField fs "extended_tweet" = some (JSON.obj efs) ∧
        lookupField efs "full_text" = some (JSON.str s))) :
    check_text (some kws) (JSON.obj fs) =
      .ok (kws.any (fun term => strContains (strLower s) term)) := by
  rcases heff with ⟨hv, htxt⟩ | ⟨hv, efs, hext, hft⟩
  · simp [check_text, pyIndex_obj_some htr, hv, pyIndex_obj_some htxt, pyLowerStr,
      getKeywords]
  · simp [check_text, pyIndex_obj_some htr, hv, pyIndex_obj_some hext,
      pyIndex_obj_some hft, pyLowerStr, getKeywords]

/-- Witness for the amended C5: a lower-case keyword matching the lower-cased
occurrence of upper-case text. -/
theorem claim_C5_text_check_amended_witness :
    check_text (some ["ai"])
      (JSON.obj [("truncated", JSON.bool false), ("text", JSON.str "AI stuff")]) =
        .ok true :=
  (claim_C5_text_check_amended ["ai"]
    [("truncated", JSON.bool false), ("text", JSON.str "AI stuff")]
    (JSON.bool false) "AI stuff" rfl (Or.inl ⟨rfl, rfl⟩)).trans (by rfl)

/-! ## Claim C6: the author check -/

/-- Counterexample to C6 as stated: author screen name "jane doe" and
keyword "janedoe", author check only, retention flag true.  The claim says
the record is retained; the code strips spaces from the keyword — not from
the screen name (line 100) — so nothing matches and the decision is to
drop. -/
theorem claim_C6_counterexample :
    decide_write
      (KeywordFilter.init (some ["janedoe"]) "contains_keyword" true (some ["author"]))
      (JSON.obj [("user", JSON.obj [("screen_name", JSON.str "jane doe")])]) =
      .ok false :=
  rfl

/-- Claim C6, amended: the author check succeeds iff some keyword, with its
whitespace removed, equals the raw screen name exactly and case-sensitively;
in particular screen name "janedoe" with keyword "jane doe" (author check
only, retention flag true) is retained. -/
theorem claim_C6_author_check_amended (kws : List String) (fs ufs : List (String × JSON))
    (sn : String)
    (hu : lookupField fs "user" = some (JSON.obj ufs))
    (hs : lookupField ufs "screen_name" = some (JSON.str sn)) :
    check_author (some kws) (JSON.obj fs) =
      .ok (kws.any (fun term => sn == stripSpaces term)) ∧
      decide_write
        (KeywordFilter.init (some ["jane doe"]) "contains_keyword" true (some ["author"]))
        (JSON.obj [("user", JSON.obj [("screen_name", JSON.str "janedoe")])]) = .ok true := by
  constructor
  · simp [check_author, pyIndex_obj_some hu, pyIndex_obj_some hs, getKeywords, jsonEqStr]
  · rfl

/-- Witness for the amended C6: the space-stripped keyword "jane doe"
matches screen name "janedoe". -/
theorem claim_C6_author_check_amended_witness :
    check_author (some ["jane doe"])
      (JSON.obj [("user", JSON.obj [("screen_name", JSON.str "janedoe")])]) = .ok true :=
  ((claim_C6_author_check_amended ["jane doe"]
    [("user", JSON.obj [("screen_name", JSON.str "janedoe")])]
    [("screen_name", JSON.str "janedoe")] "janedoe" rfl rfl).1).trans (by rfl)

/-! ## Claim C7: reference resolution and recursive processing -/

theorem setRefFields_both {fs rfs qfs : List (String × JSON)} {r3 : Dict} {rid qid : JSON}
    (hrs : lookupField fs "retweeted_status" = some (JSON.obj rfs))
    (hqs : lookupField fs "quoted_status" = some (JSON.obj qfs))
    (hri : lookupField rfs "id_str" = some rid)
    (hqi : lookupField qfs "id_str" = some qid) :
    setRefFields (JSON.obj fs) TWEET_REF_FIELDS (r3, []) =
      .ok (dictSet (dictSet r3 "retweeted_status" rid) "quoted_status" qid,
        [JSON.obj rfs, JSON.obj qfs]) := by
  simp [TWEET_REF_FIELDS, setRefFields, hrs, hqs, hri, hqi, isNull]

/-- Claim C7: a tweet embedding a retweeted-status object and a
quoted-status object has, in its flat record, the reference fields set to
the embedded status ids, and the full embedded objects are returned as the
reference list, retweeted before quoted; the driver then emits the tweet's
own row and afterwards processes each embedded reference recursively in
that order with the same classifier (stated for a classifier with no
annotate flag whose decision is to retain). -/
theorem claim_C7_reference_resolution (fs rfs qfs : List (String × JSON)) (rid qid : JSON)
    (n : Nat) (kf : KeywordFilter)
    (hrs : lookupField fs "retweeted_status" = some (JSON.obj rfs))
    (hqs : lookupField fs "quoted_status" = some (JSON.obj qfs))
    (hri : lookupField rfs "id_str" = some rid)
    (hqi : lookupField qfs "id_str" = some qid) :
    (∀ r refs, record_tweet (JSON.obj fs) = .ok (r, refs) →
      lookupField r "retweeted_status" = some rid ∧
      lookupField r "quoted_status" = some qid ∧
      refs = [JSON.obj rfs, JSON.obj qfs]) ∧
    (∀ r refs u uid outR outQ,
      decide_write kf (JSON.obj fs) = .ok true → kf.flag.isEmpty = true →
      record_tweet (JSON.obj fs) = .ok (r, refs) →
      record_user (JSON.obj fs) = .ok u →
      dictIndex u "user.id_str" = .ok uid →
      process_tweet n (some kf) (JSON.obj rfs) = .ok outR →
      process_tweet n (some kf) (JSON.obj qfs) = .ok outQ →
      process_tweet (n + 1) (some kf) (JSON.obj fs) =
        .ok ((dictSet r "user.id_str" uid, u) :: (outR ++ outQ))) := by
  have ha : ∀ r refs, record_tweet (JSON.obj fs) = .ok (r, refs) →
      lookupField r "retweeted_status" = some rid ∧
      lookupField r "quoted_status" = some qid ∧
      refs = [JSON.obj rfs, JSON.obj qfs] := by
    intro r refs h
    obtain ⟨r1, r2, er, h1, h2, h3, h4⟩ := record_tweet_inv h
    rw [setRefFields_both hrs hqs hri hqi] at h4
    injection h4 with h5
    have hr : dictSet (dictSet (setEntityFields er ENTITY_FIELDS r2) "retweeted_status" rid)
        "quoted_status" qid = r := congrArg Prod.fst h5
    have hrefs : [JSON.obj rfs, JSON.obj qfs] = refs := congrArg Prod.snd h5
    refine ⟨?_, ?_, hrefs.symm⟩
    · rw [← hr, lookupField_dictSet_ne (by decide), lookupField_dictSet_self]
    · rw [← hr, lookupField_dictSet_self]
  refine ⟨ha, ?_⟩
  intro r refs u uid outR outQ hd hfl hrt hu hui hpr hpq
  have hrefs : refs = [JSON.obj rfs, JSON.obj qfs] := (ha r refs hrt).2.2
  subst hrefs
  simp only [process_tweet, shouldWrite, hd, exbind_ok, hrt, hfl, hu, hui, hpr, hpq,
    if_true, List.foldlM_cons, List.foldlM_nil, List.nil_append, expure_eq_ok,
    List.append_nil]

def c7rsfields : List (String × JSON) := [("id_str", JSON.str "123"), ("user", JSON.obj [])]

def c7qsfields : List (String × JSON) := [("id_str", JSON.str "456"), ("user", JSON.obj [])]

def c7fields : List (String × JSON) :=
  [("user", JSON.obj [("id_str", JSON.str "u1")]),
   ("retweeted_status", JSON.obj c7rsfields), ("quoted_status", JSON.obj c7qsfields)]

/-- A classifier with empty keyword list, no annotate flag, filtering off. -/
def c7filter : KeywordFilter := ⟨some [], "", false, []⟩

/-- The flat record of the C7 witness tweet. -/
def c7record : Dict :=
  FIELDNAMES.map (fun f =>
    (f, if ENTITY_FIELDS.contains f then JSON.arr []
        else if f = "retweeted_status" then JSON.str "123"
        else if f = "quoted_status" then JSON.str "456"
        else JSON.null))

/-- The user snapshot of the C7 witness tweet. -/
def c7userrec : Dict :=
  (USER_FIELDS_OUT.map (fun f => (f, if f = "user.id_str" then JSON.str "u1" else JSON.null))) ++
    [("tweet.created_at", JSON.null)]

/-- The user snapshot of the embedded reference tweets (empty user object). -/
def c7refurec : Dict :=
  (USER_FIELDS_OUT.map (fun f => (f, JSON.null))) ++ [("tweet.created_at", JSON.null)]

/-- The flat record emitted for the embedded retweeted status. -/
def c7rsrec : Dict :=
  FIELDNAMES.map (fun f =>
    (f, if ENTITY_FIELDS.contains f then JSON.arr []
        else if f = "id_str" then JSON.str "123" else JSON.null))

/-- The flat record emitted for the embedded quoted status. -/
def c7qsrec : Dict :=
  FIELDNAMES.map (fun f =>
    (f, if ENTITY_FIELDS.contains f then JSON.arr []
        else if f = "id_str" then JSON.str "456" else JSON.null))

/-- Witness for C7 at a concrete tweet embedding a retweeted status with id
"123" and a quoted status with id "456": the driver emits the outer row and
then the two embedded rows, retweeted first. -/
theorem claim_C7_reference_resolution_witness :
    process_tweet 2 (some c7filter) (JSON.obj c7fields) =
      .ok ((dictSet c7record "user.id_str" (JSON.str "u1"), c7userrec) ::
        ([(c7rsrec, c7refurec)] ++ [(c7qsrec, c7refurec)])) :=
  (claim_C7_reference_resolution c7fields c7rsfields c7qsfields (JSON.str "123")
    (JSON.str "456") 1 c7filter rfl rfl rfl rfl).2 c7record
    [JSON.obj c7rsfields, JSON.obj c7qsfields] c7userrec (JSON.str "u1")
    [(c7rsrec, c7refurec)] [(c7qsrec, c7refurec)]
    (by rfl) (by rfl) (by rfl) (by rfl) (by rfl) (by rfl) (by rfl)

/-! ## Claim C8: unknown filter-field names -/

/-- Counterexample to C8 as stated: constructing a `KeywordFilter` with an
unknown field name does not raise — `__init__` is total because the
comprehension of line 93 iterates over the known `FILTERS` keys and never
subscripts with the unknown name — and the unknown name is silently
dropped. -/
theorem claim_C8_counterexample :
    (KeywordFilter.init (some ["k"]) "contains_keyword" true
      (some ["author", "bogus"])).filters = ["author"] ∧
    (KeywordFilter.init (some ["k"]) "contains_keyword" true (some ["bogus"])).filters =
      ([] : List String) :=
  ⟨rfl, rfl⟩

/-- Claim C8, amended: construction always succeeds, and unknown names are
silently ignored: the enabled filter set is the known filter names
restricted to the argument (all of them when the argument is absent or
empty), hence always a subset of the known names. -/
theorem claim_C8_unknown_fields_ignored (kws : Option (List String)) (flag : String)
    (df : Bool) (l : List String) :
    (KeywordFilter.init kws flag df (some l)).filters =
      (if l.isEmpty then FILTER_KEYS else FILTER_KEYS.filter (fun f => l.contains f)) ∧
    (KeywordFilter.init kws flag df none).filters = FILTER_KEYS ∧
    (∀ f, f ∈ (KeywordFilter.init kws flag df (some l)).filters → f ∈ FILTER_KEYS) := by
  refine ⟨rfl, rfl, fun f hf => ?_⟩
  by_cases he : l.isEmpty
  · simp only [KeywordFilter.init, he, if_true] at hf
    exact hf
  · simp only [KeywordFilter.init, he, if_false] at hf
    exact (List.mem_filter.mp hf).1

/-- Witness for the amended C8: the known name survives, next to an unknown
one, and is indeed a known filter key. -/
theorem claim_C8_unknown_fields_ignored_witness : ("author" : String) ∈ FILTER_KEYS :=
  (claim_C8_unknown_fields_ignored (some ["k"]) "contains_keyword" true
    ["author", "bogus"]).2.2 "author" (by decide)


/-! ## Claim C9: sparse entities in the classifier versus the extractor -/

/-- Counterexample to C9 as stated: with entities `{"urls": [5]}` — present,
non-empty, lacking both the hashtags and the user_mentions key — the
classifier's entities check raises, as the claim says, but
`parse_entity_details` on the same object does not return empty sequences
without error: it raises while mapping the malformed urls entry. -/
theorem claim_C9_counterexample :
    parse_entity_details (JSON.obj [("urls", JSON.arr [JSON.num 5])]) =
      .error PyErr.typeError ∧
    exOk (check_entities (some ["k"])
      (JSON.obj [("entities", JSON.obj [("urls", JSON.arr [JSON.num 5])])])) = false :=
  ⟨rfl, rfl⟩

theorem pyIter_null : pyIter JSON.null = .error .typeError := rfl

theorem collectBase_err_of_absent {efs : List (String × JSON)}
    (htru : (JSON.obj efs).truthy = true)
    (habs : lookupField efs "hashtags" = none ∨ lookupField efs "user_mentions" = none) :
    exOk (collectBaseEntityVals (JSON.obj efs)) = false := by
  rcases habs with hh | hm
  · simp only [collectBaseEntityVals, htru, pyGet_obj, exbind_ok, hh, Option.getD_none,
      pyIter_null, exbind_err, exOk_err, if_true]
  · cases hht : lookupField efs "hashtags" with
    | none =>
      simp only [collectBaseEntityVals, htru, pyGet_obj, exbind_ok, hht, Option.getD_none,
        pyIter_null, exbind_err, exOk_err, if_true]
    | some hv =>
      cases hit : pyIter hv with
      | error e =>
        simp only [collectBaseEntityVals, htru, pyGet_obj, exbind_ok, hht, Option.getD_some,
          hit, exbind_err, exOk_err, if_true]
      | ok hl =>
        cases hmm : hl.mapM (fun h => do pyLowerStr (← pyIndex h "text")) with
        | error e =>
          simp only [collectBaseEntityVals, htru, pyGet_obj, exbind_ok, hht, Option.getD_some,
            hit, hmm, exbind_err, exOk_err, if_true]
        | ok hts =>
          simp only [collectBaseEntityVals, htru, pyGet_obj, exbind_ok, hht, Option.getD_some,
            hit, hmm, hm, Option.getD_none, pyIter_null, exbind_err, exOk_err, if_true]

theorem exOk_false_bind {α β : Type} {m : Except PyErr α} (f : α → Except PyErr β)
    (h : exOk m = false) : exOk (m >>= f) = false := by
  cases m with
  | error e => rfl
  | ok a => simp [exOk] at h

/-- Claim C9, amended: for a tweet whose entities member is a present,
non-empty object lacking the hashtags key or the user_mentions key,
`check_entities` always raises (it iterates the result of `.get` on the
absent member), while `parse_entity_details` on the same object treats the
absent kinds as empty — whenever it completes, which it does unless some
kind that is present is malformed. -/
theorem claim_C9_divergence_amended (kws : List String) (fs efs : List (String × JSON))
    (hent : lookupField fs "entities" = some (JSON.obj efs))
    (hne : efs ≠ [])
    (habs : lookupField efs "hashtags" = none ∨ lookupField efs "user_mentions" = none) :
    exOk (check_entities (some kws) (JSON.obj fs)) = false ∧
    (∀ rr, parse_entity_details (JSON.obj efs) = .ok rr →
      (lookupField efs "hashtags" = none → rr.hashtags = []) ∧
      (lookupField efs "user_mentions" = none →
        rr.user_id_mentions = [] ∧ rr.user_screenname_mentions = [])) := by
  have htru : (JSON.obj efs).truthy = true := by
    cases efs with
    | nil => exact absurd rfl hne
    | cons p rest => rfl
  constructor
  · have he := collectBase_err_of_absent htru habs
    simp only [check_entities, pyGet_obj, hent, Option.getD_some, exbind_ok]
    exact exOk_false_bind _ he
  · intro rr hrr
    have q := parse_absent_kinds hrr
    exact ⟨q.2.2.1, q.2.2.2.1⟩

/-- Witness for the amended C9 at entities `{"hashtags": []}`: present and
non-empty, user_mentions absent; the classifier raises while the parse
completes with empty mention lists. -/
theorem claim_C9_divergence_amended_witness :
    exOk (check_entities (some ["k"])
      (JSON.obj [("entities", JSON.obj [("hashtags", JSON.arr [])])])) = false ∧
    (([] : List JSON) = [] ∧ ([] : List JSON) = []) := by
  have h := claim_C9_divergence_amended ["k"]
    [("entities", JSON.obj [("hashtags", JSON.arr [])])] [("hashtags", JSON.arr [])]
    rfl (List.cons_ne_nil _ _) (Or.inr rfl)
  exact ⟨h.1, (h.2 ⟨[], [], [], [], [], []⟩ (by rfl)).2 rfl⟩

/-! ## Claim C10: the two readings of the truncated flag -/

theorem record_tweet_text_not_true {fs : List (String × JSON)} {r : Dict} {refs : List JSON}
    (hb : isBoolTrue ((lookupField fs "truncated").getD JSON.null) = false)
    (h : record_tweet (JSON.obj fs) = .ok (r, refs)) :
    lookupField r "text" = some ((lookupField fs "text").getD JSON.null) := by
  obtain ⟨r1, r2, er, h1, h2, h3, h4⟩ := record_tweet_inv h
  have htext : lookupField r1 "text" = some ((lookupField fs "text").getD JSON.null) :=
    setFieldsFrom_lookup h1 (by decide) (pyGet_obj fs "text")
  rw [applyTruncatedText_of_not_true hb] at h2
  have h12 : r1 = r2 := Except.ok.inj h2
  rw [setRefFields_lookup_not_mem h4 (by decide),
    setEntityFields_lookup_not_mem (by decide), ← h12, htext]

theorem check_entities_absent_truncated {kws : List String} {fs : List (String × JSON)}
    (htr : lookupField fs "truncated" = none) :
    exOk (check_entities (some kws) (JSON.obj fs)) = false := by
  simp only [check_entities, pyGet_obj, exbind_ok]
  cases hb : collectBaseEntityVals ((lookupField fs "entities").getD JSON.null) with
  | error e => exact exOk_false_bind _ rfl
  | ok base => simp only [hb, exbind_ok, pyIndex_obj_none htr, exbind_err, exOk_err]

/-- Claim C10: the flattener and the extractor treat a tweet as truncated
only when the truncated value is exactly the boolean true — in every other
case, the absent key included, the extractor reduces to the base-entities
parse and the flat text field is the primary text — while the classifier
indexes the truncated key directly: `check_text` raises `KeyError` and
`check_entities` raises on every tweet object in which the key is absent,
and any truthy truncated value (for example a non-empty string) sends
`check_text` to the extended full text. -/
theorem claim_C10_truncated_handling (kws : List String) (fs : List (String × JSON)) :
    (isBoolTrue ((lookupField fs "truncated").getD JSON.null) = false →
      extract_entities (JSON.obj fs) =
        parse_entity_details ((lookupField fs "entities").getD JSON.null)) ∧
    (isBoolTrue ((lookupField fs "truncated").getD JSON.null) = false →
      ∀ r refs, record_tweet (JSON.obj fs) = .ok (r, refs) →
        lookupField r "text" = some ((lookupField fs "text").getD JSON.null)) ∧
    (lookupField fs "truncated" = none →
      check_text (some kws) (JSON.obj fs) = .error .keyError ∧
      exOk (check_entities (some kws) (JSON.obj fs)) = false) ∧
    (∀ (v : JSON) (efs : List (String × JSON)) (s : String),
      lookupField fs "truncated" = some v → v.truthy = true →
      lookupField fs "extended_tweet" = some (JSON.obj efs) →
      lookupField efs "full_text" = some (JSON.str s) →
      check_text (some kws) (JSON.obj fs) =
        .ok (kws.any (fun term => strContains (strLower s) term))) := by
  refine ⟨fun hb => extract_entities_not_true hb,
    fun hb r refs h => record_tweet_text_not_true hb h,
    fun htr => ⟨?_, check_entities_absent_truncated htr⟩,
    fun v efs s htr hv hext hft => ?_⟩
  · simp [check_text, pyIndex_obj_none htr]
  · simp [check_text, pyIndex_obj_some htr, hv, pyIndex_obj_some hext,
      pyIndex_obj_some hft, pyLowerStr, getKeywords]

/-- The record produced for the empty tweet object (used by the C10
witness). -/
def c10record : Dict :=
  FIELDNAMES.map (fun f => (f, if ENTITY_FIELDS.contains f then JSON.arr [] else JSON.null))

/-- Witness for C10 at two concrete inputs: the empty tweet object (truncated
absent) and a tweet with the truthy string "yes" as its truncated value. -/
theorem claim_C10_truncated_handling_witness :
    extract_entities (JSON.obj []) = parse_entity_details JSON.null ∧
    lookupField c10record "text" = some JSON.null ∧
    check_text (some ["k"]) (JSON.obj []) = .error .keyError ∧
    exOk (check_entities (some ["k"]) (JSON.obj [])) = false ∧
    check_text (some ["zebra"])
      (JSON.obj [("truncated", JSON.str "yes"),
        ("extended_tweet", JSON.obj [("full_text", JSON.str "Zebra crossing")])]) =
      .ok (["zebra"].any (fun term => strContains (strLower "Zebra crossing") term)) := by
  have h1 := claim_C10_truncated_handling ["k"] []
  have h2 := claim_C10_truncated_handling ["zebra"]
    [("truncated", JSON.str "yes"),
     ("extended_tweet", JSON.obj [("full_text", JSON.str "Zebra crossing")])]
  exact ⟨h1.1 (by rfl), h1.2.1 (by rfl) c10record [] (by rfl), (h1.2.2.1 rfl).1,
    (h1.2.2.1 rfl).2,
    h2.2.2.2 (JSON.str "yes") [("full_text", JSON.str "Zebra crossing")] "Zebra crossing"
      rfl rfl rfl rfl⟩
